import Mathlib

/-!
Shallow embedding of the knob-input component and verification of its
angle/value geometry and interaction state machine.

The repository contains several variants of the same component:
* `src/unnamed/part_000` — the range-configured variant (value mapping,
  range clamping, revolution counting);
* `src/knob.js` — the range-free variant whose right-half-plane angle is
  normalized with `(360 + arcsine) % 360`;
* `src/unnamed/part_002` / `part_003` — the simplest variants, whose
  `rotateKnobToClientPosition` guards against a falsy position.

JavaScript numbers are modelled as rationals (`ℚ`); the floating-point
`NaN` produced by failed coercions is `none` in `JSNum`; the `null` that
the interaction fields hold before a session starts is `JSVal.null`.
The transcendental step of `getAngle` — `radToDeg(Math.asin(dy/hyp))`
with `hyp = Math.sqrt(dx² + dy²)` — is stated over `ℝ` (`Real.arcsin`,
`Real.sqrt`) in the theorems that need it; every function downstream of
that step is embedded as a computable definition over `ℚ`.
-/

/-- A JavaScript number that may be NaN: `none` is NaN, `some q` is the
numeric value `q`. -/
abbrev JSNum := Option ℚ

/-- A JavaScript value held by the interaction-state variables: `null`
before any session, NaN, or a number. -/
inductive JSVal where
  | null
  | nan
  | num (q : ℚ)
deriving DecidableEq

/-- The ToNumber coercion JS applies inside arithmetic: `null` becomes 0,
NaN stays NaN. -/
def JSVal.toNum : JSVal → JSNum
  | .null => some 0
  | .nan => none
  | .num q => some q

/-- Store a computed number back into a JS variable. -/
def JSVal.ofNum : JSNum → JSVal
  | none => .nan
  | some q => .num q

/-- JS addition: NaN propagates. -/
def jsAdd : JSNum → JSNum → JSNum
  | some a, some b => some (a + b)
  | _, _ => none

/-- JS subtraction: NaN propagates. -/
def jsSub : JSNum → JSNum → JSNum
  | some a, some b => some (a - b)
  | _, _ => none

/-- JS `<`: every comparison with NaN is false. -/
def jsLt : JSNum → JSNum → Bool
  | some a, some b => decide (a < b)
  | _, _ => false

/-- JS `Math.abs`: NaN propagates. -/
def jsAbs : JSNum → JSNum
  | some a => some |a|
  | none => none

/-- JS division: NaN propagates. Division by zero is left without a
numeric value here (JS produces ±Infinity or NaN); every use in this
development divides by a nonzero angle or value difference. -/
def jsDiv : JSNum → JSNum → JSNum
  | some a, some b => if b = 0 then none else some (a / b)
  | _, _ => none

/-- A 2D page/viewport coordinate, as produced by `getMousePosition` and
`getTouchPosition`. -/
structure Point where
  x : ℚ
  y : ℚ
deriving DecidableEq

/-- `getDistX` (part_000 line 282, knob.js line 190): `mouse.x - center.x`. -/
def getDistX (mouse center : Point) : ℚ := mouse.x - center.x

/-- `getDistY` (part_000 line 286, knob.js line 194): `center.y - mouse.y`
(screen y grows downward, the math convention grows upward). -/
def getDistY (mouse center : Point) : ℚ := center.y - mouse.y

/-- One end of the configured range: `{angle, value}`. -/
structure RangeStop where
  angle : ℚ
  value : ℚ
deriving DecidableEq

/-- The configured range `{min, max}` (part_000 settings). -/
structure KnobRange where
  min : RangeStop
  max : RangeStop
deriving DecidableEq

/-- The resolved settings of the range-configured variant. -/
structure Settings where
  initialAngle : ℚ
  range : KnobRange
deriving DecidableEq

/-- `getDefaultSettings` (part_000 lines 124-138). -/
def getDefaultSettings : Settings :=
  { initialAngle := 225,
    range := { min := { angle := 225, value := 0 },
               max := { angle := -45, value := 100 } } }

/-- `parseFloat` applied to an optionally-present numeric setting: an
absent setting parses to NaN, a numeric one to itself. -/
def parseFloatNum : Option ℚ → JSNum
  | none => none
  | some q => some q

/-- `isValidInitialAngle` (part_000 lines 69-71):
`! settings.initialAngle || parseFloat(settings.initialAngle)`.
An absent setting and the number 0 are both falsy, so both pass through
the first disjunct. -/
def isValidInitialAngle (ia : Option ℚ) : Bool :=
  (match ia with | none => true | some q => decide (q = 0)) ||
  (match parseFloatNum ia with | none => false | some q => decide (q ≠ 0))

/-- The `initialAngle` resolution in `initializeSettings` (part_000
line 106): `parseFloat(settings.initialAngle) || getDefaultSettings().initialAngle`.
The `||` falls back to the default on NaN and on the falsy number 0. -/
def resolveInitialAngle (ia : Option ℚ) : ℚ :=
  match parseFloatNum ia with
  | none => getDefaultSettings.initialAngle
  | some q => if q = 0 then getDefaultSettings.initialAngle else q

/-- The same resolution in knob.js (line 77), whose default is 90. -/
def resolveInitialAngleK (ia : Option ℚ) : ℚ :=
  match parseFloatNum ia with
  | none => 90
  | some q => if q = 0 then 90 else q

/-- The optional `settings.range` as passed by the caller. -/
structure RangeOpt where
  min : Option RangeStop
  max : Option RangeStop

/-- `getInitialRange` / `getInitialMin` / `getInitialMax` (part_000
lines 109-122): each end falls back to the default independently. -/
def getInitialRange (ro : RangeOpt) : KnobRange :=
  { min := ro.min.getD getDefaultSettings.range.min,
    max := ro.max.getD getDefaultSettings.range.max }

/-- `getExtremeValuesDiff` (part_000 lines 156-158). -/
def getExtremeValuesDiff (r : KnobRange) : ℚ := |r.max.value - r.min.value|

/-- `getDirectionSign` (part_000 lines 160-162). -/
def getDirectionSign (r : KnobRange) : ℚ :=
  if r.max.angle > r.min.angle then 1 else -1

/-- `getExtremeValuesAngleDiff` (part_000 lines 164-166). -/
def getExtremeValuesAngleDiff (r : KnobRange) : ℚ := |r.max.angle - r.min.angle|

/-- `getArcPercentForAngle` (part_000 lines 152-154), numeric case. -/
def getArcPercentForAngle (r : KnobRange) (angle : ℚ) : ℚ :=
  |angle - r.min.angle| / getExtremeValuesAngleDiff r

/-- `getArcPercentForAngle` applied to a possibly-NaN angle, as happens
inside `replaceOutOfRangeAngle` when the candidate angle is NaN. -/
def getArcPercentForAngleJ (r : KnobRange) (angle : JSNum) : JSNum :=
  jsDiv (jsAbs (jsSub angle (some r.min.angle))) (some (getExtremeValuesAngleDiff r))

/-- `getValueForAngle` (part_000 lines 148-150). -/
def getValueForAngle (r : KnobRange) (angle : ℚ) : ℚ :=
  getArcPercentForAngle r angle * getExtremeValuesDiff r + r.min.value

/-- `getValuePercent` (part_000 lines 356-358). -/
def getValuePercent (r : KnobRange) (value : ℚ) : ℚ :=
  |value - r.min.value| / getExtremeValuesDiff r

/-- `getAngleForValue` (part_000 lines 352-354). -/
def getAngleForValue (r : KnobRange) (value : ℚ) : ℚ :=
  getValuePercent r value * getExtremeValuesAngleDiff r * getDirectionSign r + r.min.angle

/-- `isAngleInRange` (part_000 lines 264-268); both comparisons are false
when the angle is NaN. -/
def isAngleInRange (r : KnobRange) (angle : JSNum) : Bool :=
  if getDirectionSign r > 0 then
    jsLt (some r.min.angle) angle && jsLt angle (some r.max.angle)
  else
    jsLt (some r.max.angle) angle && jsLt angle (some r.min.angle)

/-- `replaceOutOfRangeAngle` (part_000 lines 270-272). For a NaN angle the
percent is NaN and `NaN < 0.5` is false, so the max angle is chosen. -/
def replaceOutOfRangeAngle (r : KnobRange) (angle : JSNum) : ℚ :=
  if jsLt (getArcPercentForAngleJ r angle) (some (1 / 2)) then r.min.angle
  else r.max.angle

/-- `getFullRotationCount` (part_000 lines 311-313):
`Math.floor(currentAngle / 360)`. -/
def getFullRotationCount (currentAngle : ℚ) : ℚ := (⌊currentAngle / 360⌋ : ℤ)

/-- `arcsineToAngle` (part_000 lines 305-309). `arcsine` is the arcsine in
degrees computed upstream by `radToDeg(getArcsine(dist))`; `distX` is the
only component of `dist` this function reads; `currentAngle` is the
captured knob state the revolution count is taken from. -/
def arcsineToAngle (currentAngle arcsine distX : ℚ) : ℚ :=
  if distX > 0 then getFullRotationCount currentAngle + arcsine
  else getFullRotationCount currentAngle + (180 - arcsine)

/-- Truncation toward zero, as the JS `%` operator applies to its
quotient. -/
def ratTrunc (q : ℚ) : ℤ := if 0 ≤ q then ⌊q⌋ else ⌈q⌉

/-- The JS remainder `a % b` on numeric operands; `b = 0` (not reached in
this development) is given the value 0 rather than NaN. -/
def jsRem (a b : ℚ) : ℚ := if b = 0 then 0 else a - b * (ratTrunc (a / b) : ℚ)

/-- `arcsineToAngle` (knob.js lines 213-217): the right half-plane result
is normalized by `(360 + arcsine) % 360`. -/
def arcsineToAngleK (arcsine distX : ℚ) : ℚ :=
  if distX > 0 then jsRem (360 + arcsine) 360 else 180 - arcsine

/-- `arcsineToAngle` (part_002 lines 212-214, part_003 lines 124-126):
the plain half-plane formula. -/
def arcsineToAngleSimple (arcsine distX : ℚ) : ℚ :=
  if distX > 0 then arcsine else 180 - arcsine

/-- One entry of `event.changedTouches`. -/
structure Touch where
  pageX : ℚ
  pageY : ℚ
deriving DecidableEq

/-- The part of a touch event the component reads. -/
structure TouchEvent where
  isTrusted : Bool
  changedTouches : List Touch
deriving DecidableEq

/-- `isSingleTouch` (part_000 lines 339-341). -/
def isSingleTouch (ev : TouchEvent) : Bool := decide (ev.changedTouches.length = 1)

/-- `isValidTouch` (part_000 lines 335-337). -/
def isValidTouch (ev : TouchEvent) : Bool := ev.isTrusted && isSingleTouch ev

/-- `getTouchPosition` (part_000 lines 327-333): the JS boolean `false` it
returns for an invalid touch is modelled as `none`; otherwise the first
changed touch's page coordinates. -/
def getTouchPosition (ev : TouchEvent) : Option Point :=
  if isValidTouch ev then
    match ev.changedTouches with
    | t :: _ => some { x := t.pageX, y := t.pageY }
    | [] => none
  else none

/-- The mutable state of the part_000 component: the current angle, the
bound input's value, the drag flag, and the interaction-session fields
(`currentInteractionInitialKnobAngle` / `...InitialClientAngle`), which
are `null` until a session is initialized. -/
structure P0State where
  currentAngle : JSNum
  inputValue : JSNum
  isDraggingKnob : Bool
  initKnobAngle : JSVal
  initClientAngle : JSVal
deriving DecidableEq

/-- `updateKnobFromClientPosition` (part_000 lines 243-255), factored over
the client angle already computed by `getAngle`. The conditional
reassignment of `newKnobAngle` on lines 249-251 is rendered as
`committed`; when `isAngleInRange` holds the angle is necessarily numeric,
so the `getD 0` default is never consulted. -/
def updateKnobFromClientAngle (r : KnobRange) (s : P0State) (angle : JSNum) : P0State :=
  let amountRotated := jsSub angle s.initClientAngle.toNum
  let newKnobAngle := jsAdd s.initKnobAngle.toNum amountRotated
  let committed : ℚ :=
    if isAngleInRange r newKnobAngle then newKnobAngle.getD 0
    else replaceOutOfRangeAngle r newKnobAngle
  { s with currentAngle := some committed,
           inputValue := some (getValueForAngle r committed) }

/-- `dragover` (part_000 lines 239-241): guarded by `isDraggingKnob`.
`angleOf` stands for the `getAngle` closure over the captured center. -/
def dragoverP0 (r : KnobRange) (angleOf : Point → JSNum) (s : P0State) (pos : Point) : P0State :=
  if s.isDraggingKnob then updateKnobFromClientAngle r s (angleOf pos) else s

/-- `touchmove` (part_000 lines 323-325): applied with no session guard.
For an invalid touch `getTouchPosition` returns `false`, and every
arithmetic step of `getAngle` on it yields NaN (`false.x` is undefined),
so the client angle passed on is NaN. -/
def touchmoveP0 (r : KnobRange) (angleOf : Point → JSNum) (s : P0State) (ev : TouchEvent) : P0State :=
  match getTouchPosition ev with
  | some p => updateKnobFromClientAngle r s (angleOf p)
  | none => updateKnobFromClientAngle r s none

/-- `initializeKnob` (part_000 lines 51-56): resolve the settings, set the
input from `getInitialValue()` and rotate to the resolved initial angle;
no session exists yet. -/
def initializeKnobState (ia : Option ℚ) (ro : RangeOpt) : P0State :=
  let r := getInitialRange ro
  let a := resolveInitialAngle ia
  { currentAngle := some a,
    inputValue := some (getValueForAngle r a),
    isDraggingKnob := false,
    initKnobAngle := .null,
    initClientAngle := .null }

/-- `changeInputValue` / `rotateKnobToValue` (part_000 lines 343-350):
`none` models a NaN `parseFloat` result, which fails the
`(value || 0 === value)` guard; any number, 0 included, rotates the knob
to `getAngleForValue(value)`. -/
def changeInputValue (r : KnobRange) (s : P0State) (v : Option ℚ) : P0State :=
  match v with
  | none => s
  | some q => { s with currentAngle := some (getAngleForValue r q) }

/-- The mutable state of the knob.js component (no range, no value
mapping: the input simply receives the committed angle). -/
structure KState where
  currentAngle : JSNum
  inputValue : JSNum
  isDraggingKnob : Bool
  initKnobAngle : JSVal
  initClientAngle : JSVal
deriving DecidableEq

/-- `initializeKnob` (knob.js lines 43-48): rotate to the resolved initial
angle and write that angle into the input. -/
def initializeKnobK (ia : Option ℚ) : KState :=
  let a := resolveInitialAngleK ia
  { currentAngle := some a,
    inputValue := some a,
    isDraggingKnob := false,
    initKnobAngle := .null,
    initClientAngle := .null }

/-- `initializeInteraction` (knob.js lines 140-143), over the client angle
computed by `getAngle`. -/
def initializeInteractionK (s : KState) (clientAngle : JSNum) : KState :=
  { s with initKnobAngle := JSVal.ofNum s.currentAngle,
           initClientAngle := JSVal.ofNum clientAngle }

/-- `dragstart` (knob.js lines 120-127): set the drag flag, then record
the session. -/
def dragstartK (s : KState) (clientAngle : JSNum) : KState :=
  initializeInteractionK { s with isDraggingKnob := true } clientAngle

/-- `updateKnobFromClientPosition` (knob.js lines 165-173), over the
client angle: no range check, the raw candidate is committed. -/
def updateKnobFromClientAngleK (s : KState) (angle : JSNum) : KState :=
  let newKnobAngle := jsAdd s.initKnobAngle.toNum (jsSub angle s.initClientAngle.toNum)
  { s with currentAngle := newKnobAngle, inputValue := newKnobAngle }

/-- `dragover` (knob.js lines 161-163): guarded by `isDraggingKnob`. -/
def dragoverK (s : KState) (angle : JSNum) : KState :=
  if s.isDraggingKnob then updateKnobFromClientAngleK s angle else s

/-- `clientAngleToKnobAngle` (part_002 lines 417-419). -/
def clientAngleToKnobAngle (degrees : ℚ) : ℚ := -1 * (degrees - 90)

/-- `rotateKnobToClientPosition` (part_002 lines 354-356): the
`position && ...` guard makes a falsy position (an invalid touch) leave
the knob untouched. `knobAngle` is the rendered rotation this variant
stores; `angleOf` is the `getClientAngle` closure. -/
def rotateKnobToClientPosition (angleOf : Point → JSNum) (knobAngle : JSNum)
    (pos : Option Point) : JSNum :=
  match pos with
  | none => knobAngle
  | some p =>
    match angleOf p with
    | none => none
    | some a => some (clientAngleToKnobAngle a)

/-- Shared fact about the transcendental step of `getAngle`: at a point
whose distance components are `dx = 0, dy = 10`, the arcsine-in-degrees
`radToDeg(asin(dy/hyp))` is exactly 90. -/
theorem arcsinDegAbove :
    Real.arcsin ((10 : ℝ) / Real.sqrt ((0 : ℝ) ^ 2 + (10 : ℝ) ^ 2)) * (180 / Real.pi) = 90 := by
  have h : Real.sqrt ((0 : ℝ) ^ 2 + (10 : ℝ) ^ 2) = 10 := by
    rw [show (0 : ℝ) ^ 2 + (10 : ℝ) ^ 2 = 10 ^ 2 by norm_num]
    exact Real.sqrt_sq (by norm_num)
  rw [h, div_self (by norm_num : (10 : ℝ) ≠ 0), Real.arcsin_one]
  field_simp
  ring

/-- Shared fact about the transcendental step of `getAngle`: at a point
whose distance components are `dx = 10, dy = 0`, the arcsine-in-degrees is
exactly 0. -/
theorem arcsinDegRight :
    Real.arcsin ((0 : ℝ) / Real.sqrt ((10 : ℝ) ^ 2 + (0 : ℝ) ^ 2)) * (180 / Real.pi) = 0 := by
  rw [zero_div, Real.arcsin_zero, zero_mul]

/-- A numeric angle accepted by `isAngleInRange` lies strictly between the
two configured bounds, hence inside the closed interval they span. -/
theorem isAngleInRange_bounds (r : KnobRange) (q : ℚ)
    (hin : isAngleInRange r (some q) = true) :
    min r.min.angle r.max.angle ≤ q ∧ q ≤ max r.min.angle r.max.angle := by
  by_cases h : r.max.angle > r.min.angle
  · simp only [isAngleInRange, getDirectionSign, if_pos h] at hin
    rw [if_pos (by norm_num : (1 : ℚ) > 0)] at hin
    simp only [jsLt, Bool.and_eq_true, decide_eq_true_eq] at hin
    constructor
    · rw [min_eq_left h.le]
      linarith [hin.1]
    · rw [max_eq_right h.le]
      linarith [hin.2]
  · simp only [isAngleInRange, getDirectionSign, if_neg h] at hin
    rw [if_neg (by norm_num : ¬((-1 : ℚ) > 0))] at hin
    simp only [jsLt, Bool.and_eq_true, decide_eq_true_eq] at hin
    constructor
    · rw [min_eq_right (le_of_not_lt h)]
      linarith [hin.1]
    · rw [max_eq_left (le_of_not_lt h)]
      linarith [hin.2]

/-- Claim C1 (counterexample): at currentAngle 720 with arcsineDeg 0 and
dx = 10 > 0, part_000's `arcsineToAngle` returns 2 — the bare revolution
count `floor(720/360)` — and not `360 * floor(720/360) + 0 = 720` as the
claim states. -/
theorem C1_bare_revolution_count_counterexample :
    arcsineToAngle 720 0 10 = 2 ∧
    arcsineToAngle 720 0 10 ≠ 360 * getFullRotationCount 720 + 0 ∧
    360 * getFullRotationCount 720 + 0 = 720 := by
  norm_num [arcsineToAngle, getFullRotationCount]

/-- Claim C1 (amended): in the variant that applies multi-revolution
continuity (part_000), `angleOf` adds the bare revolution count
`floor(currentAngle / 360)` — not `360 * floor(currentAngle / 360)` — to
the base half-plane angle (arcsineDeg when dx > 0, 180 − arcsineDeg when
dx ≤ 0), for every distance and every current angle. -/
theorem C1_revolution_offset_amended (currentAngle arcsine distX : ℚ) :
    arcsineToAngle currentAngle arcsine distX =
      ((⌊currentAngle / 360⌋ : ℤ) : ℚ) + (if distX > 0 then arcsine else 180 - arcsine) := by
  unfold arcsineToAngle getFullRotationCount
  split <;> ring

/-- Claim C2: for every range with distinct bound angles and distinct
bound values, and every angle strictly between the bound angles, mapping
the angle to a value (`getValueForAngle`) and back (`getAngleForValue`)
returns the original angle — the round-trip law, exact over `ℚ`. -/
theorem C2_angle_value_round_trip (r : KnobRange) (hA : r.min.angle ≠ r.max.angle)
    (hV : r.min.value ≠ r.max.value) (a : ℚ)
    (ha : r.min.angle < a ∧ a < r.max.angle ∨ r.max.angle < a ∧ a < r.min.angle) :
    getAngleForValue r (getValueForAngle r a) = a := by
  have hV0 : (0 : ℚ) < |r.max.value - r.min.value| :=
    abs_pos.mpr (sub_ne_zero.mpr (Ne.symm hV))
  have hD0 : (0 : ℚ) < |r.max.angle - r.min.angle| :=
    abs_pos.mpr (sub_ne_zero.mpr (Ne.symm hA))
  unfold getAngleForValue getValuePercent getValueForAngle getArcPercentForAngle
    getExtremeValuesAngleDiff getExtremeValuesDiff getDirectionSign
  rw [add_sub_cancel_right]
  rcases ha with ⟨h1, h2⟩ | ⟨h1, h2⟩
  · have hlt : r.min.angle < r.max.angle := h1.trans h2
    rw [if_pos hlt, abs_of_pos (sub_pos.mpr h1),
      abs_of_nonneg (mul_nonneg
        (div_nonneg (by linarith : (0 : ℚ) ≤ a - r.min.angle) hD0.le) hV0.le)]
    field_simp
    ring
  · have hlt : r.max.angle < r.min.angle := h1.trans h2
    rw [if_neg (by linarith), abs_of_neg (sub_neg.mpr h2),
      abs_of_nonneg (mul_nonneg
        (div_nonneg (by linarith : (0 : ℚ) ≤ -(a - r.min.angle)) hD0.le) hV0.le)]
    field_simp
    ring

/-- Witness for C2 at the default range and the interior angle 90: its
value is 50 and maps back to 90. -/
theorem C2_angle_value_round_trip_witness :
    (getDefaultSettings.range.min.angle ≠ getDefaultSettings.range.max.angle ∧
      getDefaultSettings.range.min.value ≠ getDefaultSettings.range.max.value ∧
      getDefaultSettings.range.max.angle < 90 ∧ 90 < getDefaultSettings.range.min.angle) ∧
    getAngleForValue getDefaultSettings.range
      (getValueForAngle getDefaultSettings.range 90) = 90 :=
  ⟨⟨by decide, by decide, by decide, by decide⟩,
    C2_angle_value_round_trip getDefaultSettings.range (by decide) (by decide) 90
      (Or.inr ⟨by decide, by decide⟩)⟩

/-- Claim C3: when the candidate angle `initialKnobAngle + (pointerAngle -
initialClientAngle)` of `updateKnobFromClientPosition` falls outside the
configured range, the committed angle is `range.min.angle` when the
candidate's percent-from-min is below 0.5 and `range.max.angle`
otherwise. -/
theorem C3_out_of_range_snap (r : KnobRange) (s : P0State) (a k c : ℚ)
    (hA : r.min.angle ≠ r.max.angle)
    (hk : s.initKnobAngle = JSVal.num k) (hc : s.initClientAngle = JSVal.num c)
    (hout : isAngleInRange r (some (k + (a - c))) = false) :
    (updateKnobFromClientAngle r s (some a)).currentAngle =
      some (if getArcPercentForAngle r (k + (a - c)) < 1 / 2 then r.min.angle
            else r.max.angle) := by
  have hD0 : getExtremeValuesAngleDiff r ≠ 0 := by
    unfold getExtremeValuesAngleDiff
    exact abs_ne_zero.mpr (sub_ne_zero.mpr (Ne.symm hA))
  simp only [updateKnobFromClientAngle, hk, hc, JSVal.toNum, jsSub, jsAdd, hout,
    Bool.false_eq_true, if_false, replaceOutOfRangeAngle, getArcPercentForAngleJ,
    jsAbs, jsDiv, hD0, jsLt, getArcPercentForAngle]
  split
  · rename_i h
    simp only [decide_eq_true_eq] at h
    rw [if_pos h]
  · rename_i h
    simp only [decide_eq_true_eq] at h
    rw [if_neg h]

/-- Witness for C3, the claim's own instance: with the default range
(min.angle 225, max.angle −45) and a session at knob angle 0 / client
angle 0, pointer angle −90 gives the out-of-range candidate −90, whose
percent-from-min 315/270 is not below 0.5, so it snaps to −45. -/
theorem C3_out_of_range_snap_witness :
    (getDefaultSettings.range.min.angle ≠ getDefaultSettings.range.max.angle ∧
      isAngleInRange getDefaultSettings.range (some (0 + (-90 - 0))) = false) ∧
    (updateKnobFromClientAngle getDefaultSettings.range
        ⟨some 225, some 0, true, JSVal.num 0, JSVal.num 0⟩ (some (-90))).currentAngle =
      some (if getArcPercentForAngle getDefaultSettings.range (0 + (-90 - 0)) < 1 / 2
            then getDefaultSettings.range.min.angle else getDefaultSettings.range.max.angle) ∧
    (updateKnobFromClientAngle getDefaultSettings.range
        ⟨some 225, some 0, true, JSVal.num 0, JSVal.num 0⟩ (some (-90))).currentAngle =
      some (-45) :=
  ⟨⟨by decide, by norm_num [isAngleInRange, jsLt, getDirectionSign, getDefaultSettings]⟩,
    C3_out_of_range_snap getDefaultSettings.range
      ⟨some 225, some 0, true, JSVal.num 0, JSVal.num 0⟩ (-90) 0 0
      (by decide) rfl rfl
      (by norm_num [isAngleInRange, jsLt, getDirectionSign, getDefaultSettings]),
    by norm_num [updateKnobFromClientAngle, JSVal.toNum, jsSub, jsAdd, isAngleInRange,
      jsLt, getDirectionSign, replaceOutOfRangeAngle, getArcPercentForAngleJ, jsAbs,
      jsDiv, getDefaultSettings, getValueForAngle, getArcPercentForAngle,
      getExtremeValuesAngleDiff, getExtremeValuesDiff]⟩

/-- Claim C4: with the default range and `initialAngle` unset,
construction resolves the current angle to 225 and the initial value to
0; `setValue(100)` then commits angle −45 and `setValue(50)` commits
angle 90 through the inverse `getAngleForValue` mapping. -/
theorem C4_default_range_scenario :
    (initializeKnobState none ⟨none, none⟩).currentAngle = some 225 ∧
    (initializeKnobState none ⟨none, none⟩).inputValue = some 0 ∧
    (changeInputValue (getInitialRange ⟨none, none⟩) (initializeKnobState none ⟨none, none⟩)
        (some 100)).currentAngle = some (-45) ∧
    (changeInputValue (getInitialRange ⟨none, none⟩) (initializeKnobState none ⟨none, none⟩)
        (some 50)).currentAngle = some 90 := by
  norm_num [initializeKnobState, getInitialRange, resolveInitialAngle, parseFloatNum,
    changeInputValue, getAngleForValue, getValuePercent, getValueForAngle,
    getArcPercentForAngle, getExtremeValuesAngleDiff, getExtremeValuesDiff,
    getDirectionSign, getDefaultSettings]

/-- Claim C5: in knob.js with no range and `initialAngle = 90`, the
pointer angle of a point directly above the center (`dx = 0, dy = 10`) is
90°, of a point directly to the right (`dx = 10, dy = 0`) is 0°, and a
drag session begun at the first point then moved to the second has
delta −90 and commits current angle 0. The two `Real.arcsin` conjuncts
evaluate the transcendental step of `getAngle` at those points; the
`arcsineToAngleK` conjuncts are knob.js's half-plane correction on the
resulting degree values. -/
theorem C5_no_range_session_scenario (cx cy : ℚ) :
    getDistX ⟨cx, cy - 10⟩ ⟨cx, cy⟩ = 0 ∧
    getDistY ⟨cx, cy - 10⟩ ⟨cx, cy⟩ = 10 ∧
    Real.arcsin ((getDistY ⟨cx, cy - 10⟩ ⟨cx, cy⟩ : ℝ) /
        Real.sqrt ((getDistX ⟨cx, cy - 10⟩ ⟨cx, cy⟩ : ℝ) ^ 2 +
          (getDistY ⟨cx, cy - 10⟩ ⟨cx, cy⟩ : ℝ) ^ 2)) * (180 / Real.pi) = 90 ∧
    arcsineToAngleK 90 (getDistX ⟨cx, cy - 10⟩ ⟨cx, cy⟩) = 90 ∧
    getDistX ⟨cx + 10, cy⟩ ⟨cx, cy⟩ = 10 ∧
    getDistY ⟨cx + 10, cy⟩ ⟨cx, cy⟩ = 0 ∧
    Real.arcsin ((getDistY ⟨cx + 10, cy⟩ ⟨cx, cy⟩ : ℝ) /
        Real.sqrt ((getDistX ⟨cx + 10, cy⟩ ⟨cx, cy⟩ : ℝ) ^ 2 +
          (getDistY ⟨cx + 10, cy⟩ ⟨cx, cy⟩ : ℝ) ^ 2)) * (180 / Real.pi) = 0 ∧
    arcsineToAngleK 0 (getDistX ⟨cx + 10, cy⟩ ⟨cx, cy⟩) = 0 ∧
    jsSub (some 0)
      ((dragstartK (initializeKnobK (some 90)) (some 90)).initClientAngle.toNum) =
      some (-90) ∧
    (dragoverK (dragstartK (initializeKnobK (some 90)) (some 90)) (some 0)).currentAngle =
      some 0 := by
  have hax : getDistX ⟨cx, cy - 10⟩ ⟨cx, cy⟩ = 0 := by norm_num [getDistX]
  have hay : getDistY ⟨cx, cy - 10⟩ ⟨cx, cy⟩ = 10 := by norm_num [getDistY]
  have hrx : getDistX ⟨cx + 10, cy⟩ ⟨cx, cy⟩ = 10 := by norm_num [getDistX]
  have hry : getDistY ⟨cx + 10, cy⟩ ⟨cx, cy⟩ = 0 := by norm_num [getDistY]
  refine ⟨hax, hay, ?_, ?_, hrx, hry, ?_, ?_, ?_, ?_⟩
  · rw [hax, hay]
    push_cast
    exact arcsinDegAbove
  · rw [hax]
    norm_num [arcsineToAngleK]
  · rw [hrx, hry]
    push_cast
    exact arcsinDegRight
  · rw [hrx]
    norm_num [arcsineToAngleK, jsRem, ratTrunc]
  · norm_num [dragstartK, initializeKnobK, initializeInteractionK, resolveInitialAngleK,
      parseFloatNum, JSVal.ofNum, JSVal.toNum, jsSub]
  · norm_num [dragoverK, dragstartK, initializeKnobK, initializeInteractionK,
      resolveInitialAngleK, parseFloatNum, updateKnobFromClientAngleK,
      JSVal.ofNum, JSVal.toNum, jsSub, jsAdd]

/-- Claim C6 (code bug): in part_000, a trusted touch-move event with two
changed touches fails `isValidTouch`, yet the event is not ignored:
`getTouchPosition` returns `false`, `getAngle` on it produces NaN, and
the NaN candidate snaps to `range.max.angle`, so a knob at angle 90 with
input 50 is driven to angle −45 and input 100. The final conjunct shows
the part_002 variant, whose `rotateKnobToClientPosition` guards on the
position, does ignore the same event as the claim states. -/
theorem C6_invalid_touch_commits_max_angle :
    isValidTouch ⟨true, [⟨0, 0⟩, ⟨5, 5⟩]⟩ = false ∧
    (touchmoveP0 getDefaultSettings.range (fun _ => some 0)
        ⟨some 90, some 50, false, JSVal.num 90, JSVal.num 90⟩
        ⟨true, [⟨0, 0⟩, ⟨5, 5⟩]⟩).currentAngle = some (-45) ∧
    (touchmoveP0 getDefaultSettings.range (fun _ => some 0)
        ⟨some 90, some 50, false, JSVal.num 90, JSVal.num 90⟩
        ⟨true, [⟨0, 0⟩, ⟨5, 5⟩]⟩).inputValue = some 100 ∧
    (∀ a : JSNum, rotateKnobToClientPosition (fun _ => some 0) a
        (getTouchPosition ⟨true, [⟨0, 0⟩, ⟨5, 5⟩]⟩) = a) := by
  refine ⟨by decide, ?_, ?_, ?_⟩
  · norm_num [touchmoveP0, getTouchPosition, isValidTouch, isSingleTouch,
      updateKnobFromClientAngle, JSVal.toNum, jsSub, jsAdd, isAngleInRange, jsLt,
      getDirectionSign, replaceOutOfRangeAngle, getArcPercentForAngleJ, jsAbs, jsDiv,
      getDefaultSettings, getValueForAngle, getArcPercentForAngle,
      getExtremeValuesAngleDiff, getExtremeValuesDiff]
  · norm_num [touchmoveP0, getTouchPosition, isValidTouch, isSingleTouch,
      updateKnobFromClientAngle, JSVal.toNum, jsSub, jsAdd, isAngleInRange, jsLt,
      getDirectionSign, replaceOutOfRangeAngle, getArcPercentForAngleJ, jsAbs, jsDiv,
      getDefaultSettings, getValueForAngle, getArcPercentForAngle,
      getExtremeValuesAngleDiff, getExtremeValuesDiff]
  · intro a
    norm_num [rotateKnobToClientPosition, getTouchPosition, isValidTouch, isSingleTouch]

/-- Claim C7 (counterexample): in part_000 a valid single-touch move in a
state where no session has ever begun (the freshly constructed state,
drag flag false and both session fields null) is not a no-op: with the
touch directly above a center at the origin the pointer angle is 90
(second conjunct, via `arcsineToAngle` with arcsineDeg 90, dx 0,
currentAngle 225), the null session fields coerce to 0, and the current
angle changes from 225 to 90. -/
theorem C7_touchmove_without_session_counterexample :
    (initializeKnobState none ⟨none, none⟩).isDraggingKnob = false ∧
    (initializeKnobState none ⟨none, none⟩).initKnobAngle = JSVal.null ∧
    (initializeKnobState none ⟨none, none⟩).currentAngle = some 225 ∧
    arcsineToAngle 225 90 (getDistX ⟨0, -10⟩ ⟨0, 0⟩) = 90 ∧
    (touchmoveP0 getDefaultSettings.range
        (fun p => some (arcsineToAngle 225 90 (getDistX p ⟨0, 0⟩)))
        (initializeKnobState none ⟨none, none⟩) ⟨true, [⟨0, -10⟩]⟩).currentAngle =
      some 90 := by
  refine ⟨rfl, rfl, ?_, ?_, ?_⟩
  · norm_num [initializeKnobState, resolveInitialAngle, parseFloatNum, getDefaultSettings]
  · norm_num [arcsineToAngle, getFullRotationCount, getDistX]
  · norm_num [touchmoveP0, getTouchPosition, isValidTouch, isSingleTouch,
      initializeKnobState, getInitialRange, resolveInitialAngle, parseFloatNum,
      arcsineToAngle, getFullRotationCount, getDistX,
      updateKnobFromClientAngle, JSVal.toNum, jsSub, jsAdd, isAngleInRange, jsLt,
      getDirectionSign, replaceOutOfRangeAngle, getArcPercentForAngleJ, jsAbs, jsDiv,
      getDefaultSettings, getValueForAngle, getArcPercentForAngle,
      getExtremeValuesAngleDiff, getExtremeValuesDiff]

/-- Claim C7 (amended): the mouse path is guarded — for every state with
the drag flag down, `dragover` leaves the state unchanged, whatever the
pointer position and whatever angle the geometry computes; the touch
path (`touchmove`, see the counterexample) applies the update with no
such session check. -/
theorem C7_idle_dragover_noop (r : KnobRange) (angleOf : Point → JSNum)
    (s : P0State) (pos : Point) (h : s.isDraggingKnob = false) :
    dragoverP0 r angleOf s pos = s := by
  simp [dragoverP0, h]

/-- Witness for the amended C7 at the freshly constructed state. -/
theorem C7_idle_dragover_noop_witness :
    (initializeKnobState none ⟨none, none⟩).isDraggingKnob = false ∧
    dragoverP0 getDefaultSettings.range (fun _ => some 0)
      (initializeKnobState none ⟨none, none⟩) ⟨1, 2⟩ =
      initializeKnobState none ⟨none, none⟩ :=
  ⟨rfl, C7_idle_dragover_noop getDefaultSettings.range (fun _ => some 0)
    (initializeKnobState none ⟨none, none⟩) ⟨1, 2⟩ rfl⟩

/-- Claim C8: for every point distinct from the center, the geometry of
`getAngle` is well defined: the hypotenuse `sqrt(dx² + dy²)` is positive,
the arcsine argument `dy/hyp` lies in [−1, 1], and the degenerate
(NaN-producing) zero hypotenuse is reachable only when the point equals
the center. -/
theorem C8_nonzero_distance_well_defined (p c : Point) (h : p ≠ c) :
    0 < Real.sqrt ((getDistX p c : ℝ) ^ 2 + (getDistY p c : ℝ) ^ 2) ∧
    -1 ≤ (getDistY p c : ℝ) / Real.sqrt ((getDistX p c : ℝ) ^ 2 + (getDistY p c : ℝ) ^ 2) ∧
    (getDistY p c : ℝ) / Real.sqrt ((getDistX p c : ℝ) ^ 2 + (getDistY p c : ℝ) ^ 2) ≤ 1 ∧
    ∀ q : Point, Real.sqrt ((getDistX q c : ℝ) ^ 2 + (getDistY q c : ℝ) ^ 2) = 0 → q = c := by
  have hne : getDistX p c ≠ 0 ∨ getDistY p c ≠ 0 := by
    by_contra hcon
    push_neg at hcon
    apply h
    obtain ⟨px, py⟩ := p
    obtain ⟨cx, cy⟩ := c
    simp only [getDistX, getDistY, sub_eq_zero] at hcon
    obtain ⟨h1, h2⟩ := hcon
    simp only [Point.mk.injEq]
    exact ⟨h1, by linarith⟩
  have hpos : (0 : ℝ) < (getDistX p c : ℝ) ^ 2 + (getDistY p c : ℝ) ^ 2 := by
    rcases hne with hx | hy
    · have hx0 : (getDistX p c : ℝ) ≠ 0 := by exact_mod_cast hx
      have h1 : (0 : ℝ) < (getDistX p c : ℝ) ^ 2 := by positivity
      nlinarith [sq_nonneg ((getDistY p c : ℝ))]
    · have hy0 : (getDistY p c : ℝ) ≠ 0 := by exact_mod_cast hy
      have h1 : (0 : ℝ) < (getDistY p c : ℝ) ^ 2 := by positivity
      nlinarith [sq_nonneg ((getDistX p c : ℝ))]
  have hS : 0 < Real.sqrt ((getDistX p c : ℝ) ^ 2 + (getDistY p c : ℝ) ^ 2) :=
    Real.sqrt_pos.mpr hpos
  have habs : |(getDistY p c : ℝ)| ≤
      Real.sqrt ((getDistX p c : ℝ) ^ 2 + (getDistY p c : ℝ) ^ 2) := by
    rw [← Real.sqrt_sq_eq_abs]
    exact Real.sqrt_le_sqrt (by nlinarith [sq_nonneg ((getDistX p c : ℝ))])
  refine ⟨hS, ?_, ?_, ?_⟩
  · rw [le_div_iff₀ hS]
    have := neg_abs_le ((getDistY p c : ℝ))
    linarith
  · rw [div_le_one hS]
    have := le_abs_self ((getDistY p c : ℝ))
    linarith
  · intro q hq
    have hnn : (0 : ℝ) ≤ (getDistX q c : ℝ) ^ 2 + (getDistY q c : ℝ) ^ 2 := by positivity
    have hz : (getDistX q c : ℝ) ^ 2 + (getDistY q c : ℝ) ^ 2 = 0 := by
      have := Real.sqrt_eq_zero hnn |>.mp hq
      linarith [this]
    have hx : (getDistX q c : ℝ) = 0 := by
      nlinarith [sq_nonneg ((getDistX q c : ℝ)), sq_nonneg ((getDistY q c : ℝ))]
    have hy : (getDistY q c : ℝ) = 0 := by
      nlinarith [sq_nonneg ((getDistX q c : ℝ)), sq_nonneg ((getDistY q c : ℝ))]
    have hx2 : getDistX q c = 0 := by exact_mod_cast hx
    have hy2 : getDistY q c = 0 := by exact_mod_cast hy
    obtain ⟨qx, qy⟩ := q
    obtain ⟨cx, cy⟩ := c
    simp only [getDistX, getDistY, sub_eq_zero] at hx2 hy2
    simp only [Point.mk.injEq]
    exact ⟨hx2, by linarith⟩

/-- Witness for C8 at the point (3, 4) against the center (0, 0). -/
theorem C8_nonzero_distance_well_defined_witness :
    (Point.mk 3 4 ≠ Point.mk 0 0) ∧
    (0 < Real.sqrt ((getDistX ⟨3, 4⟩ ⟨0, 0⟩ : ℝ) ^ 2 + (getDistY ⟨3, 4⟩ ⟨0, 0⟩ : ℝ) ^ 2) ∧
      -1 ≤ (getDistY ⟨3, 4⟩ ⟨0, 0⟩ : ℝ) /
          Real.sqrt ((getDistX ⟨3, 4⟩ ⟨0, 0⟩ : ℝ) ^ 2 + (getDistY ⟨3, 4⟩ ⟨0, 0⟩ : ℝ) ^ 2) ∧
      (getDistY ⟨3, 4⟩ ⟨0, 0⟩ : ℝ) /
          Real.sqrt ((getDistX ⟨3, 4⟩ ⟨0, 0⟩ : ℝ) ^ 2 + (getDistY ⟨3, 4⟩ ⟨0, 0⟩ : ℝ) ^ 2) ≤ 1 ∧
      ∀ q : Point,
        Real.sqrt ((getDistX q ⟨0, 0⟩ : ℝ) ^ 2 + (getDistY q ⟨0, 0⟩ : ℝ) ^ 2) = 0 →
          q = ⟨0, 0⟩) :=
  ⟨by decide, C8_nonzero_distance_well_defined ⟨3, 4⟩ ⟨0, 0⟩ (by decide)⟩

/-- Claim C9: `initialAngle = 0` passes `isValidInitialAngle` (0 is falsy,
so the first disjunct accepts), yet the settings resolution replaces it
with the default — 225 in the range-configured part_000, 90 in knob.js —
because `parseFloat(0) || default` takes the fallback on the falsy 0; no
input at all can resolve the initial angle to 0. -/
theorem C9_zero_initial_angle_falls_back :
    isValidInitialAngle (some 0) = true ∧
    resolveInitialAngle (some 0) = 225 ∧
    resolveInitialAngleK (some 0) = 90 ∧
    (∀ ia : Option ℚ, resolveInitialAngle ia ≠ 0) ∧
    (∀ ia : Option ℚ, resolveInitialAngleK ia ≠ 0) := by
  refine ⟨by decide,
    by norm_num [resolveInitialAngle, parseFloatNum, getDefaultSettings],
    by norm_num [resolveInitialAngleK, parseFloatNum], ?_, ?_⟩
  · intro ia
    rcases ia with _ | q
    · norm_num [resolveInitialAngle, parseFloatNum, getDefaultSettings]
    · by_cases hq : q = 0 <;>
        simp [resolveInitialAngle, parseFloatNum, getDefaultSettings, hq]
  · intro ia
    rcases ia with _ | q
    · norm_num [resolveInitialAngleK, parseFloatNum]
    · by_cases hq : q = 0 <;> simp [resolveInitialAngleK, parseFloatNum, hq]

/-- Claim C10: in the range-configured variant, every angle committed by
`updateKnobFromClientPosition` lies in the closed interval spanned by
`range.min.angle` and `range.max.angle`, whatever the state and pointer
angle; a NaN candidate (the second conjunct) snaps to `range.max.angle`.
The remaining conjuncts show the bound is not enforced elsewhere:
`setValue(200)` under the default range commits −315, below the
interval, and construction with `initialAngle = 1000` commits 1000,
above it. -/
theorem C10_update_commits_within_range (r : KnobRange) (s : P0State) (angle : JSNum) :
    (∃ q : ℚ, (updateKnobFromClientAngle r s angle).currentAngle = some q ∧
        min r.min.angle r.max.angle ≤ q ∧ q ≤ max r.min.angle r.max.angle) ∧
    (jsAdd s.initKnobAngle.toNum (jsSub angle s.initClientAngle.toNum) = none →
        (updateKnobFromClientAngle r s angle).currentAngle = some r.max.angle) ∧
    getAngleForValue getDefaultSettings.range 200 = -315 ∧
    getAngleForValue getDefaultSettings.range 200 <
      min getDefaultSettings.range.min.angle getDefaultSettings.range.max.angle ∧
    (changeInputValue getDefaultSettings.range (initializeKnobState none ⟨none, none⟩)
        (some 200)).currentAngle = some (-315) ∧
    (initializeKnobState (some 1000) ⟨none, none⟩).currentAngle = some 1000 ∧
    max getDefaultSettings.range.min.angle getDefaultSettings.range.max.angle < (1000 : ℚ) := by
  refine ⟨?_, ?_, ?_, ?_, ?_, ?_, ?_⟩
  · rcases hN : jsAdd s.initKnobAngle.toNum (jsSub angle s.initClientAngle.toNum) with _ | q
    · refine ⟨r.max.angle, ?_, min_le_right _ _, le_max_right _ _⟩
      simp only [updateKnobFromClientAngle]
      rw [hN]
      simp only [isAngleInRange, jsLt, replaceOutOfRangeAngle, getArcPercentForAngleJ,
        jsAbs, jsSub, jsDiv]
      split <;> simp
    · by_cases hin : isAngleInRange r (some q) = true
      · obtain ⟨hlo, hhi⟩ := isAngleInRange_bounds r q hin
        refine ⟨q, ?_, hlo, hhi⟩
        simp only [updateKnobFromClientAngle]
        rw [hN]
        simp [hin]
      · refine ⟨replaceOutOfRangeAngle r (some q), ?_, ?_, ?_⟩
        · simp only [updateKnobFromClientAngle]
          rw [hN]
          simp only [Bool.not_eq_true] at hin
          simp [hin]
        · unfold replaceOutOfRangeAngle
          split
          · exact min_le_left _ _
          · exact min_le_right _ _
        · unfold replaceOutOfRangeAngle
          split
          · exact le_max_left _ _
          · exact le_max_right _ _
  · intro hN
    simp only [updateKnobFromClientAngle]
    rw [hN]
    simp only [isAngleInRange, jsLt, replaceOutOfRangeAngle, getArcPercentForAngleJ,
      jsAbs, jsSub, jsDiv]
    split <;> simp
  · norm_num [getAngleForValue, getValuePercent, getExtremeValuesAngleDiff,
      getExtremeValuesDiff, getDirectionSign, getDefaultSettings]
  · norm_num [getAngleForValue, getValuePercent, getExtremeValuesAngleDiff,
      getExtremeValuesDiff, getDirectionSign, getDefaultSettings]
  · norm_num [changeInputValue, initializeKnobState, getInitialRange, resolveInitialAngle,
      parseFloatNum, getAngleForValue, getValuePercent, getExtremeValuesAngleDiff,
      getExtremeValuesDiff, getDirectionSign, getDefaultSettings]
  · norm_num [initializeKnobState, resolveInitialAngle, parseFloatNum, getDefaultSettings]
  · norm_num [getDefaultSettings]
